import Mathlib

/-!
A shallow embedding of the DirectDigital ("Xplana") partner-API client, in its
two observed revisions:

* namespace `P0`  embeds the revision in `src/unnamed/part_000` (numeric
  `apiVersion`, default `0.5`, version gates `0.6`, `0.7`, `0.8`);
* namespace `Djs` embeds the revision in `src/lib/dd.js` (string `apiVersion`,
  default `'v1'`, gate `'v2'`, URL built with Node's `url.resolve`).

Pure request-building and response-classification logic is translated directly
from the source.  An operation is modelled as the HTTP request descriptor it
hands to `_http` (`some o`), or `none` when the source returns `null` before
any transport use.  The transport itself is an external collaborator and is
passed in as a function wherever an operation consumes its outcome.
-/

set_option autoImplicit false

namespace DirectDigitalClient

/-- JavaScript values as they occur in parsed JSON response bodies; only the
shapes the client inspects are represented. -/
inductive JVal where
  | undef : JVal
  | jsNull : JVal
  | str : String → JVal
  | num : ℚ → JVal
  | jsBool : Bool → JVal
deriving DecidableEq

/-- JavaScript truthiness of a `JVal` (`undefined`, `null`, `''`, `0`, `false`
are falsy, everything else truthy). -/
def truthy : JVal → Bool
  | JVal.undef => false
  | JVal.jsNull => false
  | JVal.str s => !(s == "")
  | JVal.num n => decide (n ≠ 0)
  | JVal.jsBool b => b

/-- Values the client places into query-string objects: strings, booleans
(`remote`, `emptyMode`) and repeated-key arrays (`productCode`). -/
inductive QVal where
  | s : String → QVal
  | b : Bool → QVal
  | arr : List String → QVal
deriving DecidableEq

/-- A JS object used as a query map, in insertion order. -/
abbrev Query := List (String × QVal)

/-- Property read `m[k]` on a query object: the first binding for `k`. -/
def getKey (m : Query) (k : String) : Option QVal :=
  match m.find? (fun p => p.1 == k) with
  | some p => some p.2
  | none => none

/-- Property assignment `m[k] = v` on a query object: replaces an existing
binding for `k`, otherwise appends one. -/
def setKey (m : Query) (k : String) (v : QVal) : Query :=
  if m.any (fun p => p.1 == k) then
    m.map (fun p => if p.1 == k then (k, v) else p)
  else
    m ++ [(k, v)]

/-- A request URL, kept as its base string plus the query parameters that were
serialized into the URL itself (the `_post` path embeds `qs` into the URL). -/
structure UrlParts where
  base : String
  query : Query
deriving DecidableEq

/-- The `options` object handed to the `request` library: method, url, the
`qs` object (merged into the URL's query by the transport), an optional
form body, and the `json` flag set by `_http`. -/
structure HttpOptions where
  method : String
  url : UrlParts
  qs : Option Query := none
  form : Option Query := none
  json : Bool := false
deriving DecidableEq

/-- The full set of query parameters the transport sends for a request:
those already serialized into the URL followed by those in `qs`. -/
def effQuery (o : HttpOptions) : Query :=
  o.url.query ++ o.qs.getD []

/-- A parsed JSON response body: the `code` field the classifier inspects
(absent fields read as `undefined`), plus the rest of the payload, opaque to
the client and carried only for identity. -/
structure JsonBody where
  code : JVal
  payload : String
deriving DecidableEq

/-- An HTTP response as delivered by the transport collaborator. -/
structure Response where
  statusCode : Int
  body : JsonBody
deriving DecidableEq

/-- The error `_http` rejects with: `new Error(fmt('%d - %s failed', ...))`
with the response body attached as `err.meta`. -/
structure ApiError where
  message : String
  meta : JsonBody
deriving DecidableEq

/-- `isResponseSuccessful(response)`: status code in `[200, 300)`. -/
def isResponseSuccessful (r : Response) : Bool :=
  decide (200 ≤ r.statusCode) && decide (r.statusCode < 300)

/-- `isBodySuccessful(body)`: `!body.code` (no truthy `code` field). -/
def isBodySuccessful (b : JsonBody) : Bool :=
  !(truthy b.code)

/-- The response-classification step of `_http` (identical in both
revisions): reject with `'<statusCode> - <url> failed'` and `meta = body`
unless the response and the body are both successful; otherwise resolve with
the body unchanged. -/
def httpClassify (url : String) (r : Response) : Except ApiError JsonBody :=
  if !(isResponseSuccessful r) || !(isBodySuccessful r.body) then
    Except.error
      { message := toString r.statusCode ++ " - " ++ url ++ " failed"
      , meta := r.body }
  else
    Except.ok r.body

/-- Endpoint normalization shared by both revisions'`_buildApiUrl`:
`if (endpoint.substring(0, 1) != '/') endpoint = '/' + endpoint`, i.e. a
leading slash is prefixed when the first character is not already `/`. -/
def normalizeEndpoint (endpoint : String) : String :=
  if endpoint.data.head? = some '/' then endpoint else "/" ++ endpoint

/-- Characters of an authority component, up to the first `/`. -/
def takeUntilSlash : List Char → List Char
  | [] => []
  | c :: cs => if c = '/' then [] else c :: takeUntilSlash cs

/-- Splits a character list at the first occurrence of the three characters
`://`, returning the part before (reversed accumulator unwound) and after. -/
def splitSchemeAux : List Char → List Char → Option (List Char × List Char)
  | acc, ':' :: '/' :: '/' :: rest => some (acc.reverse, rest)
  | acc, c :: rest => splitSchemeAux (c :: acc) rest
  | _, [] => none

/-- The `scheme://authority` prefix of a URL string, or `""` when the string
has no `://`. -/
def schemeAuthority (u : String) : String :=
  match splitSchemeAux [] u.data with
  | some (scheme, rest) =>
      String.mk scheme ++ "://" ++ String.mk (takeUntilSlash rest)
  | none => ""

/-- Modelled from the Node standard library (an external dependency of
`src/lib/dd.js`, not repository code): `require('url').resolve(base, ref)`
for a reference that is an absolute path (the client always passes a path
starting with `/`): the base URL's path is replaced by the reference, so the
result is the base's `scheme://authority` followed by the path; a base with
no `://` contributes nothing. -/
def urlResolve (base ref : String) : String :=
  schemeAuthority base ++ ref

/-- Caller-supplied user info, passed through verbatim as parameters. -/
structure UserInfo where
  firstName : String
  lastName : String
  email : String
  username : String
deriving DecidableEq

/-- The options bag of `retrieveEmbedCodeV2`; absent fields are `none`. -/
structure EmbedOpts where
  remote : Option Bool := none
  emptyMode : Option Bool := none
  width : Option String := none
  height : Option String := none
deriving DecidableEq

/-- The flags bag of `getUserProductCount`; absent flags read falsy. -/
structure CountOpts where
  doCountActive : Bool := false
  doCountInactive : Bool := false
deriving DecidableEq

/-- The body shape `retrieveUserProducts` resolves with, as consumed by the
composite operations: an `active` and an `inactive` list of product codes. -/
structure UserProductsBody where
  active : List String
  inactive : List String
deriving DecidableEq

/-- JS `a || d` for an optional string operand: the default replaces both an
absent and a falsy (empty) string. -/
def jsOrStr (a : Option String) (d : String) : String :=
  match a with
  | some s => if s == "" then d else s
  | none => d

/-- JS `a || d` for an optional numeric operand: the default replaces both an
absent and a falsy (zero) number. -/
def jsOrNum (a : Option ℚ) (d : ℚ) : ℚ :=
  match a with
  | some x => if x = 0 then d else x
  | none => d

/-- JS `a || false` for an optional boolean operand. -/
def jsOrBool (a : Option Bool) : Bool :=
  match a with
  | some b => b
  | none => false

/-- The pure continuation of `getUserProductCount` (identical in both
revisions), applied to the body `retrieveUserProducts` resolved with:
`count = 0`, add `body.active.length` when `doCountActive`, add
`body.inactive.length` when `doCountInactive`. -/
def getUserProductCount (body : UserProductsBody) (options : CountOpts) : Nat :=
  (if options.doCountActive then body.active.length else 0) +
    (if options.doCountInactive then body.inactive.length else 0)

/-- The pure continuation of `isProductFulfilled` (identical in both
revisions), applied to the body `retrieveUserProducts` resolved with:
`fulfilled` starts `false` and a lodash `forEach` accumulates
`fulfilled || (activeProductCode == productCode)` over `body.active`. -/
def isProductFulfilled (body : UserProductsBody) (productCode : String) : Bool :=
  body.active.foldl
    (fun fulfilled activeProductCode => fulfilled || (activeProductCode == productCode))
    false

/-- A synchronously thrown JavaScript error (as opposed to a rejection). -/
inductive JsError where
  | typeError : JsError
deriving DecidableEq

/-- The object `checkStatus` resolves with: `online`, `subsystems.web`
(flattened here to `web`), and a `latency` string in milliseconds. -/
structure StatusReport where
  online : Bool
  web : Bool
  latency : String
deriving DecidableEq

/-- `DD_SERVICES_PATH`, defined identically at the top of both revisions. -/
def DD_SERVICES_PATH : String := "/directdigital"

/-- `XPLANA_SERVICES_PATH`, defined identically in both revisions. -/
def XPLANA_SERVICES_PATH : String := "/xplana-platform-integration"

namespace P0

/-- The constructor options of the `part_000` revision; this revision reads
`options.apiVersion`, `options.version` (numeric) and
`options.trustedPartnerId`. Absent fields are `none`. -/
structure CtorOpts where
  apiVersion : Option ℚ := none
  version : Option ℚ := none
  trustedPartnerId : Option String := none
deriving DecidableEq

/-- A constructed client instance of the `part_000` revision. -/
structure Client where
  name : String
  apiVersion : ℚ
  trustedPartnerId : String
  host : String
deriving DecidableEq

/-- The `DirectDigital` constructor of `part_000`:
`apiVersion = options.apiVersion || options.version || 0.5`,
`trustedPartnerId = options.trustedPartnerId || ''`. -/
def DirectDigital (host : String) (options : CtorOpts) : Client :=
  { name := "directDigital"
  , apiVersion := jsOrNum options.apiVersion (jsOrNum options.version 0.5)
  , trustedPartnerId := jsOrStr options.trustedPartnerId ""
  , host := host }

/-- `_buildApiUrl` of `part_000`: plain concatenation
`this.host + servicesPath + '/services' + endpoint` after normalization. -/
def _buildApiUrl (c : Client) (endpoint servicesPath : String) : String :=
  c.host ++ servicesPath ++ "/services" ++ normalizeEndpoint endpoint

/-- `_get`: a GET request descriptor with the query in `options.qs`. -/
def _get (c : Client) (endpoint servicesPath : String) (qs : Query) : HttpOptions :=
  { method := "GET"
  , url := { base := _buildApiUrl c endpoint servicesPath, query := [] }
  , qs := some qs }

/-- `_post`: the query is serialized into the URL itself (arrays as repeated
keys) and `options.qs` is left unset; `form` is the optional form body. -/
def _post (c : Client) (endpoint servicesPath : String) (qs : Query)
    (form : Option Query) : HttpOptions :=
  { method := "POST"
  , url := { base := _buildApiUrl c endpoint servicesPath, query := qs }
  , form := form }

/-- The mutation `_http` performs on its options before calling the
transport: `options.qs = options.qs || {}; options.json = true;
options.qs.trustedPartnerID = this.trustedPartnerId`. -/
def prepare (c : Client) (o : HttpOptions) : HttpOptions :=
  { o with
    json := true
    qs := some (setKey (o.qs.getD []) "trustedPartnerID" (QVal.s c.trustedPartnerId)) }

/-- The request an operation actually hands to the transport: its descriptor
(when it built one) after the `_http` preparation step. -/
def dispatch (c : Client) (r : Option HttpOptions) : Option HttpOptions :=
  r.map (prepare c)

/-- `deactivateUserProducts(customerId, productCodes)`. -/
def deactivateUserProducts (c : Client) (customerId : String)
    (productCodes : List String) : Option HttpOptions :=
  let qs : Query :=
    [ ("customerID", QVal.s customerId)
    , ("productCode", QVal.arr productCodes) ]
  some (_post c "/deactivateUserProducts" XPLANA_SERVICES_PATH qs (some []))

/-- `fulfillProducts(customerId, userInfo, productCodes)`; note the
all-lowercase `customerid` key, and `_post` called with no form argument. -/
def fulfillProducts (c : Client) (customerId : String) (userInfo : UserInfo)
    (productCodes : List String) : Option HttpOptions :=
  let qs : Query :=
    [ ("customerid", QVal.s customerId)
    , ("userinfovo.email", QVal.s userInfo.email)
    , ("userinfovo.firstname", QVal.s userInfo.firstName)
    , ("userinfovo.lastname", QVal.s userInfo.lastName)
    , ("userinfovo.username", QVal.s userInfo.username)
    , ("productCode", QVal.arr productCodes) ]
  some (_post c "/fulfillProducts" XPLANA_SERVICES_PATH qs none)

/-- `generateMobileKey(customerId)`. -/
def generateMobileKey (c : Client) (customerId : String) : Option HttpOptions :=
  some (_get c "/generateMobileKey" XPLANA_SERVICES_PATH [("customerID", QVal.s customerId)])

/-- `retrieveUserProducts(customerId)`. -/
def retrieveUserProducts (c : Client) (customerId : String) : Option HttpOptions :=
  some (_get c "/retrieveUserProducts" XPLANA_SERVICES_PATH [("customerID", QVal.s customerId)])

/-- `retrieveProducts()`. -/
def retrieveProducts (c : Client) : Option HttpOptions :=
  some (_get c "/retrieveProducts" XPLANA_SERVICES_PATH [])

/-- `verifyProducts(productCode)`. -/
def verifyProducts (c : Client) (productCode : List String) : Option HttpOptions :=
  some (_post c "/verifyProducts" XPLANA_SERVICES_PATH
    [("productCode", QVal.arr productCode)] (some []))

/-- `renewProduct(customerId, productCodes)`: returns `null` (no transport
use) when `this.apiVersion < 0.8`. -/
def renewProduct (c : Client) (customerId : String)
    (productCodes : List String) : Option HttpOptions :=
  if c.apiVersion < 0.8 then none
  else
    let qs : Query :=
      [ ("customerID", QVal.s customerId)
      , ("productCode", QVal.arr productCodes) ]
    some (_post c "/renewProducts" XPLANA_SERVICES_PATH qs (some []))

/-- `retrieveIntegratedEmbedCode(customerId, remote, userInfo)`: returns
`null` when `this.apiVersion < 0.7`. -/
def retrieveIntegratedEmbedCode (c : Client) (customerId : String)
    (remote : Bool) (userInfo : UserInfo) : Option HttpOptions :=
  if c.apiVersion < 0.7 then none
  else
    let qs : Query :=
      [ ("customerID", QVal.s customerId)
      , ("email", QVal.s userInfo.email)
      , ("firstname", QVal.s userInfo.firstName)
      , ("lastname", QVal.s userInfo.lastName)
      , ("username", QVal.s userInfo.username)
      , ("remote", QVal.b remote) ]
    some (_post c "/retrieveIntegratedEmbedCode" XPLANA_SERVICES_PATH qs (some []))

/-- `redeemCodeFromBookstore(customerId, userInfo, redeemCode)`: returns
`null` when `this.apiVersion < 0.6`; a POST in this revision. -/
def redeemCodeFromBookstore (c : Client) (customerId : String)
    (userInfo : UserInfo) (redeemCode : String) : Option HttpOptions :=
  if c.apiVersion < 0.6 then none
  else
    let qs : Query :=
      [ ("customerID", QVal.s customerId)
      , ("userinfovo.email", QVal.s userInfo.email)
      , ("userinfovo.firstname", QVal.s userInfo.firstName)
      , ("userinfovo.lastname", QVal.s userInfo.lastName)
      , ("userinfovo.username", QVal.s userInfo.username)
      , ("redeemCode", QVal.s redeemCode) ]
    some (_post c "/redeemCodeFromBookStore" DD_SERVICES_PATH qs (some []))

/-- `retrieveEmbedCodeV1(customerId, userInfo)`. -/
def retrieveEmbedCodeV1 (c : Client) (customerId : String)
    (userInfo : UserInfo) : Option HttpOptions :=
  let qs : Query :=
    [ ("customerID", QVal.s customerId)
    , ("email", QVal.s userInfo.email)
    , ("firstname", QVal.s userInfo.firstName)
    , ("lastname", QVal.s userInfo.lastName)
    , ("username", QVal.s userInfo.username) ]
  some (_get c "/retrieveEmbedCode" XPLANA_SERVICES_PATH qs)

/-- `retrieveEmbedCodeV2(customerId, userInfo, options)`: returns `null`
when `this.apiVersion < 0.8`; defaults `remote`/`emptyMode` to `false` and
`width`/`height` to `'100%'` via JS `||`. -/
def retrieveEmbedCodeV2 (c : Client) (customerId : String)
    (userInfo : UserInfo) (options : EmbedOpts) : Option HttpOptions :=
  if c.apiVersion < 0.8 then none
  else
    let qs : Query :=
      [ ("customerID", QVal.s customerId)
      , ("email", QVal.s userInfo.email)
      , ("firstname", QVal.s userInfo.firstName)
      , ("lastname", QVal.s userInfo.lastName)
      , ("username", QVal.s userInfo.username)
      , ("remote", QVal.b (jsOrBool options.remote))
      , ("emptyMode", QVal.b (jsOrBool options.emptyMode))
      , ("width", QVal.s (jsOrStr options.width "100%"))
      , ("height", QVal.s (jsOrStr options.height "100%")) ]
    some (_get c "/retrieveEmbedCode" DD_SERVICES_PATH qs)

/-- `retrieveEmbedCode(customerId, userInfo, options)`: dispatches to V2 for
`apiVersion >= 0.8`, else to V1. -/
def retrieveEmbedCode (c : Client) (customerId : String) (userInfo : UserInfo)
    (options : EmbedOpts) : Option HttpOptions :=
  if 0.8 ≤ c.apiVersion then retrieveEmbedCodeV2 c customerId userInfo options
  else retrieveEmbedCodeV1 c customerId userInfo

end P0

namespace Djs

/-- The constructor options of the `dd.js` revision; this revision reads
`options.apiVersion`, `options.version` (strings such as `'v1'`/`'v2'`) and
the misspelled `options.trustedParterId`. Absent fields are `none`. -/
structure CtorOpts where
  apiVersion : Option String := none
  version : Option String := none
  trustedParterId : Option String := none
deriving DecidableEq

/-- A constructed client instance of the `dd.js` revision. -/
structure Client where
  name : String
  apiVersion : String
  trustedParterId : String
  host : String
deriving DecidableEq

/-- The `DirectDigital` constructor of `dd.js`:
`apiVersion = options.apiVersion || options.version || 'v1'`,
`trustedParterId = options.trustedParterId || ''`. -/
def DirectDigital (host : String) (options : CtorOpts) : Client :=
  { name := "directDigital"
  , apiVersion := jsOrStr options.apiVersion (jsOrStr options.version "v1")
  , trustedParterId := jsOrStr options.trustedParterId ""
  , host := host }

/-- `_buildApiUrl` of `dd.js`:
`resolve(this.host, servicesPath + '/services' + endpoint)` using Node's
`url.resolve` (see `urlResolve`) after normalization. -/
def _buildApiUrl (c : Client) (endpoint servicesPath : String) : String :=
  urlResolve c.host (servicesPath ++ "/services" ++ normalizeEndpoint endpoint)

/-- `_get`: a GET request descriptor with the query in `options.qs`. -/
def _get (c : Client) (endpoint servicesPath : String) (qs : Query) : HttpOptions :=
  { method := "GET"
  , url := { base := _buildApiUrl c endpoint servicesPath, query := [] }
  , qs := some qs }

/-- `_post`: the query is serialized into the URL itself and `options.qs` is
left unset; every `dd.js` call site passes no form argument. -/
def _post (c : Client) (endpoint servicesPath : String) (qs : Query)
    (form : Option Query) : HttpOptions :=
  { method := "POST"
  , url := { base := _buildApiUrl c endpoint servicesPath, query := qs }
  , form := form }

/-- The mutation the `dd.js` `_http` performs before calling the transport:
`options.json = true; options.qs.trustedPartnerID = this.trustedParterId`.
Unlike `part_000` there is no `options.qs = options.qs || {}` guard, so when
`options.qs` is absent (every `_post` call) the property assignment throws a
TypeError before any transport use. -/
def prepare (c : Client) (o : HttpOptions) : Except JsError HttpOptions :=
  match o.qs with
  | none => Except.error JsError.typeError
  | some m =>
      Except.ok
        { o with
          json := true
          qs := some (setKey m "trustedPartnerID" (QVal.s c.trustedParterId)) }

/-- The request an operation actually hands to the transport, when the
preparation step does not throw. -/
def dispatch (c : Client) (r : Option HttpOptions) : Option HttpOptions :=
  r.bind (fun o => (prepare c o).toOption)

/-- `deactivateUserProducts(options)`; the source reads `customerId` and
`productCodes` from an options bag, modelled as explicit parameters. -/
def deactivateUserProducts (c : Client) (customerId : String)
    (productCodes : List String) : Option HttpOptions :=
  let qs : Query :=
    [ ("customerID", QVal.s customerId)
    , ("productCode", QVal.arr productCodes) ]
  some (_post c "/deactivateUserProducts" XPLANA_SERVICES_PATH qs none)

/-- `fulfillProducts(options)`; the source reads `customerId`, the four user
fields and `productCodes` from an options bag, modelled as explicit
parameters; note the all-lowercase `customerid` key. -/
def fulfillProducts (c : Client) (customerId : String) (userInfo : UserInfo)
    (productCodes : List String) : Option HttpOptions :=
  let qs : Query :=
    [ ("customerid", QVal.s customerId)
    , ("userinfovo.email", QVal.s userInfo.email)
    , ("userinfovo.firstname", QVal.s userInfo.firstName)
    , ("userinfovo.lastname", QVal.s userInfo.lastName)
    , ("userinfovo.username", QVal.s userInfo.username)
    , ("productCode", QVal.arr productCodes) ]
  some (_post c "/fulfillProducts" XPLANA_SERVICES_PATH qs none)

/-- `generateMobileKey(options)`. -/
def generateMobileKey (c : Client) (customerId : String) : Option HttpOptions :=
  some (_get c "/generateMobileKey" XPLANA_SERVICES_PATH [("customerID", QVal.s customerId)])

/-- `retrieveUserProducts(options)`. -/
def retrieveUserProducts (c : Client) (customerId : String) : Option HttpOptions :=
  some (_get c "/retrieveUserProducts" XPLANA_SERVICES_PATH [("customerID", QVal.s customerId)])

/-- `retrieveProducts()`. -/
def retrieveProducts (c : Client) : Option HttpOptions :=
  some (_get c "/retrieveProducts" XPLANA_SERVICES_PATH [])

/-- `verifyProducts(options)`. -/
def verifyProducts (c : Client) (productCodes : List String) : Option HttpOptions :=
  some (_post c "/verifyProducts" XPLANA_SERVICES_PATH
    [("productCode", QVal.arr productCodes)] none)

/-- `redeemCodeFromBookstore(options)`: returns `null` when
`this.apiVersion != 'v2'`; a GET in this revision. -/
def redeemCodeFromBookstore (c : Client) (customerId : String)
    (userInfo : UserInfo) (redeemCode : String) : Option HttpOptions :=
  if c.apiVersion ≠ "v2" then none
  else
    let qs : Query :=
      [ ("customerID", QVal.s customerId)
      , ("userinfovo.email", QVal.s userInfo.email)
      , ("userinfovo.firstname", QVal.s userInfo.firstName)
      , ("userinfovo.lastname", QVal.s userInfo.lastName)
      , ("userinfovo.username", QVal.s userInfo.username)
      , ("redeemCode", QVal.s redeemCode) ]
    some (_get c "/redeemCodeFromBookStore" DD_SERVICES_PATH qs)

/-- `retrieveEmbedCodeV1(options)`. -/
def retrieveEmbedCodeV1 (c : Client) (customerId : String)
    (userInfo : UserInfo) : Option HttpOptions :=
  let qs : Query :=
    [ ("customerID", QVal.s customerId)
    , ("email", QVal.s userInfo.email)
    , ("firstname", QVal.s userInfo.firstName)
    , ("lastname", QVal.s userInfo.lastName)
    , ("username", QVal.s userInfo.username) ]
  some (_get c "/retrieveEmbedCode" XPLANA_SERVICES_PATH qs)

/-- `retrieveEmbedCodeV2(options)`: not version-gated in this revision;
defaults `remote`/`emptyMode` to `false` and `width`/`height` to `'100%'`
via JS `||`. -/
def retrieveEmbedCodeV2 (c : Client) (customerId : String)
    (userInfo : UserInfo) (options : EmbedOpts) : Option HttpOptions :=
  let qs : Query :=
    [ ("customerID", QVal.s customerId)
    , ("email", QVal.s userInfo.email)
    , ("firstname", QVal.s userInfo.firstName)
    , ("lastname", QVal.s userInfo.lastName)
    , ("username", QVal.s userInfo.username)
    , ("remote", QVal.b (jsOrBool options.remote))
    , ("emptyMode", QVal.b (jsOrBool options.emptyMode))
    , ("width", QVal.s (jsOrStr options.width "100%"))
    , ("height", QVal.s (jsOrStr options.height "100%")) ]
  some (_get c "/retrieveEmbedCode" DD_SERVICES_PATH qs)

/-- `retrieveEmbedCode(options)`: a switch on `this.apiVersion`, to V1 for
`'v1'`, V2 for `'v2'`, `null` otherwise. -/
def retrieveEmbedCode (c : Client) (customerId : String) (userInfo : UserInfo)
    (options : EmbedOpts) : Option HttpOptions :=
  if c.apiVersion = "v1" then retrieveEmbedCodeV1 c customerId userInfo
  else if c.apiVersion = "v2" then retrieveEmbedCodeV2 c customerId userInfo options
  else none

/-- The free function `checkWebStatus()` of `dd.js`. Its first statement
reads `this.host`; `thisBinding` is the value of `this` at the call, and the
file is in strict mode, so an unbound call reads a property of `undefined`
and throws a TypeError. With a binding, a transport success maps to `true`
and a transport rejection is caught and mapped to `false`. -/
def checkWebStatus (thisBinding : Option Client)
    (transport : String → Except String Response) : Except JsError Bool :=
  match thisBinding with
  | none => Except.error JsError.typeError
  | some c =>
      match transport c.host with
      | Except.ok _ => Except.ok true
      | Except.error _ => Except.ok false

/-- `checkStatus()` of `dd.js`: calls `checkWebStatus()` as a free function,
i.e. with no `this` binding, then builds the status report from the result;
`elapsedMs` stands for the wall-clock `moment` difference. -/
def checkStatus (_self : Client) (transport : String → Except String Response)
    (elapsedMs : ℚ) : Except JsError StatusReport :=
  match checkWebStatus none transport with
  | Except.error e => Except.error e
  | Except.ok w =>
      Except.ok { online := w, web := w, latency := toString elapsedMs ++ "ms" }

end Djs

/-- Sample user info used to instantiate universally quantified theorems. -/
def uiSample : UserInfo :=
  { firstName := "F", lastName := "L", email := "f@x.org", username := "fu" }

/-- A `part_000` client below every version gate (`apiVersion = 0.5`). -/
def p0ClientV5 : P0.Client :=
  { name := "directDigital", apiVersion := 0.5, trustedPartnerId := "tp", host := "http://h" }

/-- A `part_000` client at the highest version gate (`apiVersion = 0.8`). -/
def p0ClientV8 : P0.Client :=
  { name := "directDigital", apiVersion := 0.8, trustedPartnerId := "tp", host := "http://h" }

/-- A `dd.js` client with the default string version `'v1'`. -/
def djsClientV1 : Djs.Client :=
  { name := "directDigital", apiVersion := "v1", trustedParterId := "tp", host := "http://h" }

/-- C1: an operation resolves with the parsed response body unchanged iff the
status code is in `[200,300)` and the body carries no truthy `code` field;
otherwise it rejects with message `<statusCode> - <url> failed` and meta equal
to the raw response body. -/
theorem httpClassify_success_iff (url : String) (r : Response) :
    (httpClassify url r = Except.ok r.body ↔
      (200 ≤ r.statusCode ∧ r.statusCode < 300 ∧ truthy r.body.code = false)) ∧
    ((r.statusCode < 200 ∨ 300 ≤ r.statusCode ∨ truthy r.body.code = true) →
      httpClassify url r = Except.error
        { message := toString r.statusCode ++ " - " ++ url ++ " failed"
        , meta := r.body }) := by
  unfold httpClassify isResponseSuccessful isBodySuccessful
  by_cases h1 : 200 ≤ r.statusCode <;>
    by_cases h2 : r.statusCode < 300 <;>
      cases h3 : truthy r.body.code <;>
        simp [h1, h2, h3]

/-- Instantiation of the C1 theorem at a concrete failing response. -/
theorem httpClassify_success_iff_witness :
    httpClassify "http://u/x" ⟨404, ⟨JVal.undef, "p"⟩⟩ = Except.error
      { message := toString (404 : Int) ++ " - " ++ "http://u/x" ++ " failed"
      , meta := ⟨JVal.undef, "p"⟩ } :=
  (httpClassify_success_iff "http://u/x" ⟨404, ⟨JVal.undef, "p"⟩⟩).2
    (Or.inr (Or.inl (by decide)))

theorem normalizeEndpoint_slash (e : String) :
    normalizeEndpoint ("/" ++ e) = "/" ++ e := by
  unfold normalizeEndpoint
  rw [if_pos]
  simp [String.data_append]

theorem normalizeEndpoint_idem (e : String) :
    normalizeEndpoint (normalizeEndpoint e) = normalizeEndpoint e := by
  unfold normalizeEndpoint
  by_cases h : e.data.head? = some '/'
  · simp [h]
  · rw [if_neg h, if_pos]
    simp [String.data_append]

/-- C4 counterexample: for a host that carries a path component, the `dd.js`
revision's URL (built with Node's `url.resolve`) is not the plain
concatenation `host + namespacePath + "/services" + normalizedEndpoint`:
the host's own path is dropped. -/
theorem buildApiUrl_concat_counterexample :
    Djs._buildApiUrl
        { name := "directDigital", apiVersion := "v1", trustedParterId := ""
        , host := "http://h/base" } "/e" DD_SERVICES_PATH
      ≠ "http://h/base" ++ DD_SERVICES_PATH ++ "/services" ++ normalizeEndpoint "/e" := by
  decide

/-- C4 (amended): in the `part_000` revision the constructed URL equals
`host ++ namespacePath ++ "/services" ++ normalizedEndpoint` for every
endpoint and namespace path; in the `dd.js` revision the URL is
`url.resolve(host, ...)`, which equals that concatenation whenever the host
is a bare `scheme://authority` with no path suffix; in both revisions
normalization is idempotent and an endpoint given with or without a leading
slash yields the identical URL. -/
theorem buildApiUrl_spec :
    (∀ (c : P0.Client) (endpoint servicesPath : String),
        P0._buildApiUrl c endpoint servicesPath
          = c.host ++ servicesPath ++ "/services" ++ normalizeEndpoint endpoint) ∧
    (∀ (c : Djs.Client) (endpoint servicesPath : String),
        schemeAuthority c.host = c.host →
        Djs._buildApiUrl c endpoint servicesPath
          = c.host ++ servicesPath ++ "/services" ++ normalizeEndpoint endpoint) ∧
    (∀ endpoint : String,
        normalizeEndpoint (normalizeEndpoint endpoint) = normalizeEndpoint endpoint) ∧
    (∀ (c : P0.Client) (endpoint servicesPath : String),
        endpoint.data.head? ≠ some '/' →
        P0._buildApiUrl c ("/" ++ endpoint) servicesPath
          = P0._buildApiUrl c endpoint servicesPath) ∧
    (∀ (c : Djs.Client) (endpoint servicesPath : String),
        endpoint.data.head? ≠ some '/' →
        Djs._buildApiUrl c ("/" ++ endpoint) servicesPath
          = Djs._buildApiUrl c endpoint servicesPath) := by
  refine ⟨fun c e sp => rfl, ?_, normalizeEndpoint_idem, ?_, ?_⟩
  · intro c e sp h
    unfold Djs._buildApiUrl urlResolve
    rw [h]
    simp [String.append_assoc]
  · intro c e sp h
    unfold P0._buildApiUrl
    rw [normalizeEndpoint_slash, normalizeEndpoint, if_neg h]
  · intro c e sp h
    unfold Djs._buildApiUrl
    rw [normalizeEndpoint_slash, normalizeEndpoint, if_neg h]

/-- Instantiation of the C4 theorem: a path-free host where the `dd.js` URL
does equal the concatenation, and slash-insensitivity at a concrete
endpoint. -/
theorem buildApiUrl_spec_witness :
    (Djs._buildApiUrl
        { name := "directDigital", apiVersion := "v1", trustedParterId := ""
        , host := "http://h" } "e" DD_SERVICES_PATH
      = "http://h" ++ DD_SERVICES_PATH ++ "/services" ++ normalizeEndpoint "e") ∧
    (Djs._buildApiUrl
        { name := "directDigital", apiVersion := "v1", trustedParterId := ""
        , host := "http://h" } ("/" ++ "e") DD_SERVICES_PATH
      = Djs._buildApiUrl
        { name := "directDigital", apiVersion := "v1", trustedParterId := ""
        , host := "http://h" } "e" DD_SERVICES_PATH) :=
  ⟨buildApiUrl_spec.2.1 _ "e" DD_SERVICES_PATH (by decide),
   buildApiUrl_spec.2.2.2.2 _ "e" DD_SERVICES_PATH (by decide)⟩

theorem setKey_mem (m : Query) (k : String) (v : QVal) : (k, v) ∈ setKey m k v := by
  unfold setKey
  by_cases h : m.any (fun p => p.1 == k)
  · rw [if_pos h]
    obtain ⟨p, hp, hpk⟩ := List.any_eq_true.mp h
    exact List.mem_map.mpr ⟨p, hp, by simp [hpk]⟩
  · rw [if_neg h]
    exact List.mem_append_right _ (List.mem_singleton.mpr rfl)

theorem prepare0_tp (c : P0.Client) (o : HttpOptions) :
    ("trustedPartnerID", QVal.s c.trustedPartnerId) ∈ effQuery (P0.prepare c o) :=
  List.mem_append_right _ (setKey_mem (o.qs.getD []) _ _)

theorem dispatch0_tp (c : P0.Client) (r : Option HttpOptions) :
    ∀ o ∈ P0.dispatch c r,
      ("trustedPartnerID", QVal.s c.trustedPartnerId) ∈ effQuery o := by
  intro o ho
  cases r with
  | none => simp [P0.dispatch] at ho
  | some a =>
      simp only [P0.dispatch, Option.map_some', Option.mem_def, Option.some.injEq] at ho
      subst ho
      exact prepare0_tp c a

theorem prepareDjs_tp (c : Djs.Client) (a o : HttpOptions)
    (h : Djs.prepare c a = Except.ok o) :
    ("trustedPartnerID", QVal.s c.trustedParterId) ∈ effQuery o := by
  unfold Djs.prepare at h
  cases hq : a.qs with
  | none => rw [hq] at h; exact absurd h (by simp)
  | some m =>
      rw [hq] at h
      simp only [Except.ok.injEq] at h
      subst h
      exact List.mem_append_right _ (setKey_mem m _ _)

theorem dispatchDjs_tp (c : Djs.Client) (r : Option HttpOptions) :
    ∀ o ∈ Djs.dispatch c r,
      ("trustedPartnerID", QVal.s c.trustedParterId) ∈ effQuery o := by
  intro o ho
  cases r with
  | none => simp [Djs.dispatch] at ho
  | some a =>
      simp only [Djs.dispatch, Option.some_bind, Option.mem_def] at ho
      cases hp : Djs.prepare c a with
      | error e => rw [hp] at ho; simp [Except.toOption] at ho
      | ok o' =>
          rw [hp] at ho
          simp only [Except.toOption, Option.some.injEq] at ho
          subst ho
          exact prepareDjs_tp c a o' hp

/-- C2: every public operation of either revision that hands a request to the
transport sends `trustedPartnerID`, mapped to the trusted-partner identifier
stored at construction, among the request's query parameters, even though no
operation puts it into the query object it builds. -/
theorem trustedPartnerID_always_sent :
    (∀ (c : P0.Client),
        ∀ o ∈ P0.dispatch c (P0.retrieveProducts c),
          ("trustedPartnerID", QVal.s c.trustedPartnerId) ∈ effQuery o) ∧
    (∀ (c : P0.Client) (cid : String) (pcs : List String),
        ∀ o ∈ P0.dispatch c (P0.deactivateUserProducts c cid pcs),
          ("trustedPartnerID", QVal.s c.trustedPartnerId) ∈ effQuery o) ∧
    (∀ (c : P0.Client) (cid : String) (ui : UserInfo) (pcs : List String),
        ∀ o ∈ P0.dispatch c (P0.fulfillProducts c cid ui pcs),
          ("trustedPartnerID", QVal.s c.trustedPartnerId) ∈ effQuery o) ∧
    (∀ (c : P0.Client) (cid : String),
        ∀ o ∈ P0.dispatch c (P0.generateMobileKey c cid),
          ("trustedPartnerID", QVal.s c.trustedPartnerId) ∈ effQuery o) ∧
    (∀ (c : P0.Client) (cid : String),
        ∀ o ∈ P0.dispatch c (P0.retrieveUserProducts c cid),
          ("trustedPartnerID", QVal.s c.trustedPartnerId) ∈ effQuery o) ∧
    (∀ (c : P0.Client) (pcs : List String),
        ∀ o ∈ P0.dispatch c (P0.verifyProducts c pcs),
          ("trustedPartnerID", QVal.s c.trustedPartnerId) ∈ effQuery o) ∧
    (∀ (c : P0.Client) (cid : String) (pcs : List String),
        ∀ o ∈ P0.dispatch c (P0.renewProduct c cid pcs),
          ("trustedPartnerID", QVal.s c.trustedPartnerId) ∈ effQuery o) ∧
    (∀ (c : P0.Client) (cid : String) (remote : Bool) (ui : UserInfo),
        ∀ o ∈ P0.dispatch c (P0.retrieveIntegratedEmbedCode c cid remote ui),
          ("trustedPartnerID", QVal.s c.trustedPartnerId) ∈ effQuery o) ∧
    (∀ (c : P0.Client) (cid : String) (ui : UserInfo) (rc : String),
        ∀ o ∈ P0.dispatch c (P0.redeemCodeFromBookstore c cid ui rc),
          ("trustedPartnerID", QVal.s c.trustedPartnerId) ∈ effQuery o) ∧
    (∀ (c : P0.Client) (cid : String) (ui : UserInfo),
        ∀ o ∈ P0.dispatch c (P0.retrieveEmbedCodeV1 c cid ui),
          ("trustedPartnerID", QVal.s c.trustedPartnerId) ∈ effQuery o) ∧
    (∀ (c : P0.Client) (cid : String) (ui : UserInfo) (eo : EmbedOpts),
        ∀ o ∈ P0.dispatch c (P0.retrieveEmbedCodeV2 c cid ui eo),
          ("trustedPartnerID", QVal.s c.trustedPartnerId) ∈ effQuery o) ∧
    (∀ (c : P0.Client) (cid : String) (ui : UserInfo) (eo : EmbedOpts),
        ∀ o ∈ P0.dispatch c (P0.retrieveEmbedCode c cid ui eo),
          ("trustedPartnerID", QVal.s c.trustedPartnerId) ∈ effQuery o) ∧
    (∀ (c : Djs.Client) (cid : String) (pcs : List String),
        ∀ o ∈ Djs.dispatch c (Djs.deactivateUserProducts c cid pcs),
          ("trustedPartnerID", QVal.s c.trustedParterId) ∈ effQuery o) ∧
    (∀ (c : Djs.Client) (cid : String) (ui : UserInfo) (pcs : List String),
        ∀ o ∈ Djs.dispatch c (Djs.fulfillProducts c cid ui pcs),
          ("trustedPartnerID", QVal.s c.trustedParterId) ∈ effQuery o) ∧
    (∀ (c : Djs.Client) (cid : String),
        ∀ o ∈ Djs.dispatch c (Djs.generateMobileKey c cid),
          ("trustedPartnerID", QVal.s c.trustedParterId) ∈ effQuery o) ∧
    (∀ (c : Djs.Client) (cid : String),
        ∀ o ∈ Djs.dispatch c (Djs.retrieveUserProducts c cid),
          ("trustedPartnerID", QVal.s c.trustedParterId) ∈ effQuery o) ∧
    (∀ (c : Djs.Client),
        ∀ o ∈ Djs.dispatch c (Djs.retrieveProducts c),
          ("trustedPartnerID", QVal.s c.trustedParterId) ∈ effQuery o) ∧
    (∀ (c : Djs.Client) (pcs : List String),
        ∀ o ∈ Djs.dispatch c (Djs.verifyProducts c pcs),
          ("trustedPartnerID", QVal.s c.trustedParterId) ∈ effQuery o) ∧
    (∀ (c : Djs.Client) (cid : String) (ui : UserInfo) (rc : String),
        ∀ o ∈ Djs.dispatch c (Djs.redeemCodeFromBookstore c cid ui rc),
          ("trustedPartnerID", QVal.s c.trustedParterId) ∈ effQuery o) ∧
    (∀ (c : Djs.Client) (cid : String) (ui : UserInfo),
        ∀ o ∈ Djs.dispatch c (Djs.retrieveEmbedCodeV1 c cid ui),
          ("trustedPartnerID", QVal.s c.trustedParterId) ∈ effQuery o) ∧
    (∀ (c : Djs.Client) (cid : String) (ui : UserInfo) (eo : EmbedOpts),
        ∀ o ∈ Djs.dispatch c (Djs.retrieveEmbedCodeV2 c cid ui eo),
          ("trustedPartnerID", QVal.s c.trustedParterId) ∈ effQuery o) ∧
    (∀ (c : Djs.Client) (cid : String) (ui : UserInfo) (eo : EmbedOpts),
        ∀ o ∈ Djs.dispatch c (Djs.retrieveEmbedCode c cid ui eo),
          ("trustedPartnerID", QVal.s c.trustedParterId) ∈ effQuery o) :=
  ⟨fun c => dispatch0_tp c _,
   fun c _ _ => dispatch0_tp c _,
   fun c _ _ _ => dispatch0_tp c _,
   fun c _ => dispatch0_tp c _,
   fun c _ => dispatch0_tp c _,
   fun c _ => dispatch0_tp c _,
   fun c _ _ => dispatch0_tp c _,
   fun c _ _ _ => dispatch0_tp c _,
   fun c _ _ _ => dispatch0_tp c _,
   fun c _ _ => dispatch0_tp c _,
   fun c _ _ _ => dispatch0_tp c _,
   fun c _ _ _ => dispatch0_tp c _,
   fun c _ _ => dispatchDjs_tp c _,
   fun c _ _ _ => dispatchDjs_tp c _,
   fun c _ => dispatchDjs_tp c _,
   fun c _ => dispatchDjs_tp c _,
   fun c => dispatchDjs_tp c _,
   fun c _ => dispatchDjs_tp c _,
   fun c _ _ _ => dispatchDjs_tp c _,
   fun c _ _ => dispatchDjs_tp c _,
   fun c _ _ _ => dispatchDjs_tp c _,
   fun c _ _ _ => dispatchDjs_tp c _⟩

/-- Instantiation of the C2 theorem: the dispatched `retrieveProducts`
request of a client configured with partner id `"tp"` carries it. -/
theorem trustedPartnerID_always_sent_witness :
    ("trustedPartnerID", QVal.s "tp") ∈
      effQuery (P0.prepare p0ClientV5
        (P0._get p0ClientV5 "/retrieveProducts" XPLANA_SERVICES_PATH [])) :=
  trustedPartnerID_always_sent.1 p0ClientV5 _ rfl

/-- C3: each version-gated operation invoked below its gate returns the
`null` sentinel, modelled as `none`: no request descriptor exists, so nothing
is dispatched (the last two conjuncts: dispatching the sentinel performs no
transport call). The gated operations are `renewProduct` (< 0.8),
`retrieveIntegratedEmbedCode` (< 0.7), `redeemCodeFromBookstore` (< 0.6 in
`part_000`; ≠ 'v2' in `dd.js`) and `retrieveEmbedCodeV2` (< 0.8, gated in
`part_000` only). -/
theorem gated_ops_null_below_gate :
    (∀ (c : P0.Client) (cid : String) (pcs : List String),
        c.apiVersion < 0.8 → P0.renewProduct c cid pcs = none) ∧
    (∀ (c : P0.Client) (cid : String) (remote : Bool) (ui : UserInfo),
        c.apiVersion < 0.7 → P0.retrieveIntegratedEmbedCode c cid remote ui = none) ∧
    (∀ (c : P0.Client) (cid : String) (ui : UserInfo) (rc : String),
        c.apiVersion < 0.6 → P0.redeemCodeFromBookstore c cid ui rc = none) ∧
    (∀ (c : P0.Client) (cid : String) (ui : UserInfo) (eo : EmbedOpts),
        c.apiVersion < 0.8 → P0.retrieveEmbedCodeV2 c cid ui eo = none) ∧
    (∀ (c : Djs.Client) (cid : String) (ui : UserInfo) (rc : String),
        c.apiVersion ≠ "v2" → Djs.redeemCodeFromBookstore c cid ui rc = none) ∧
    (∀ c : P0.Client, P0.dispatch c none = none) ∧
    (∀ c : Djs.Client, Djs.dispatch c none = none) := by
  refine ⟨?_, ?_, ?_, ?_, ?_, fun c => rfl, fun c => rfl⟩
  · intro c cid pcs h
    unfold P0.renewProduct
    rw [if_pos h]
  · intro c cid remote ui h
    unfold P0.retrieveIntegratedEmbedCode
    rw [if_pos h]
  · intro c cid ui rc h
    unfold P0.redeemCodeFromBookstore
    rw [if_pos h]
  · intro c cid ui eo h
    unfold P0.retrieveEmbedCodeV2
    rw [if_pos h]
  · intro c cid ui rc h
    unfold Djs.redeemCodeFromBookstore
    rw [if_pos h]

/-- Instantiation of the C3 theorem at version 0.5 (below every numeric
gate) and at string version `'v1'` (the `dd.js` gate). -/
theorem gated_ops_null_below_gate_witness :
    P0.renewProduct p0ClientV5 "c" ["p"] = none ∧
    P0.retrieveIntegratedEmbedCode p0ClientV5 "c" false uiSample = none ∧
    P0.redeemCodeFromBookstore p0ClientV5 "c" uiSample "r" = none ∧
    P0.retrieveEmbedCodeV2 p0ClientV5 "c" uiSample {} = none ∧
    Djs.redeemCodeFromBookstore djsClientV1 "c" uiSample "r" = none :=
  ⟨gated_ops_null_below_gate.1 p0ClientV5 "c" ["p"] (by norm_num [p0ClientV5]),
   gated_ops_null_below_gate.2.1 p0ClientV5 "c" false uiSample (by norm_num [p0ClientV5]),
   gated_ops_null_below_gate.2.2.1 p0ClientV5 "c" uiSample "r" (by norm_num [p0ClientV5]),
   gated_ops_null_below_gate.2.2.2.1 p0ClientV5 "c" uiSample {} (by norm_num [p0ClientV5]),
   gated_ops_null_below_gate.2.2.2.2.1 djsClientV1 "c" uiSample "r" (by decide)⟩

/-- C5 (code bug in `dd.js`): `checkStatus()` never resolves with a status
report. `checkWebStatus` is invoked as a free function in a strict-mode file,
so its very first statement `var url = this.host` reads a property of
`undefined` and throws a TypeError for every transport, contradicting the
claim that transport failures are folded into `online:false`. -/
theorem checkStatus_throws_typeError (c : Djs.Client)
    (transport : String → Except String Response) (elapsedMs : ℚ) :
    Djs.checkStatus c transport elapsedMs = Except.error JsError.typeError := rfl

/-- Instantiation of the C5 theorem at a concrete client and a rejecting
transport: even there the result is the thrown TypeError, not a report. -/
theorem checkStatus_throws_typeError_witness :
    Djs.checkStatus djsClientV1 (fun _ => Except.error "ECONNREFUSED") 3
      = Except.error JsError.typeError :=
  checkStatus_throws_typeError djsClientV1 (fun _ => Except.error "ECONNREFUSED") 3

theorem foldl_or_beq (l : List String) (x : String) (b : Bool) :
    l.foldl (fun f a => f || (a == x)) b = (b || l.any (fun a => a == x)) := by
  induction l generalizing b with
  | nil => simp
  | cons hd tl ih => simp [List.foldl_cons, ih, Bool.or_assoc]

/-- C6: `isProductFulfilled` answers `true` exactly when the product code is
an element of the `active` array of the `retrieveUserProducts` body, and in
particular answers `false` on an empty `active` array. -/
theorem isProductFulfilled_mem_iff (body : UserProductsBody) (productCode : String) :
    (isProductFulfilled body productCode = true ↔ productCode ∈ body.active) ∧
    (body.active = [] → isProductFulfilled body productCode = false) := by
  constructor
  · unfold isProductFulfilled
    rw [foldl_or_beq]
    simp [List.any_eq_true]
  · intro h
    unfold isProductFulfilled
    rw [h]
    rfl

/-- Instantiation of the C6 theorem: a fulfilled code in a singleton
`active` array, and the empty-array case. -/
theorem isProductFulfilled_mem_iff_witness :
    isProductFulfilled ⟨["A"], []⟩ "A" = true ∧
    isProductFulfilled ⟨[], ["B"]⟩ "A" = false :=
  ⟨(isProductFulfilled_mem_iff ⟨["A"], []⟩ "A").1.mpr (by simp),
   (isProductFulfilled_mem_iff ⟨[], ["B"]⟩ "A").2 rfl⟩

/-- C7: with `doCountActive` set and `doCountInactive` unset,
`getUserProductCount` returns exactly the length of the body's `active`
array, whatever the `inactive` array holds. -/
theorem getUserProductCount_active_only (body : UserProductsBody) :
    getUserProductCount body { doCountActive := true, doCountInactive := false }
      = body.active.length := by
  simp [getUserProductCount]

theorem prepareDjs_get (c : Djs.Client) (e sp : String) (q : Query) :
    Djs.prepare c (Djs._get c e sp q) = Except.ok
      { method := "GET"
      , url := { base := Djs._buildApiUrl c e sp, query := [] }
      , qs := some (setKey q "trustedPartnerID" (QVal.s c.trustedParterId))
      , form := none
      , json := true } := rfl

/-- Instantiation of the C7 theorem: two active products, one inactive. -/
theorem getUserProductCount_active_only_witness :
    getUserProductCount ⟨["A", "B"], ["C"]⟩
        { doCountActive := true, doCountInactive := false } = 2 :=
  (getUserProductCount_active_only ⟨["A", "B"], ["C"]⟩).trans rfl

/-- C8: `retrieveEmbedCodeV2` called with an empty options object sends
`remote=false`, `emptyMode=false`, `width='100%'` and `height='100%'` in the
outgoing query, in both revisions (in `part_000` whenever the version gate
lets a request out at all). -/
theorem retrieveEmbedCodeV2_defaults :
    (∀ (c : P0.Client) (cid : String) (ui : UserInfo),
        ∀ o ∈ P0.dispatch c (P0.retrieveEmbedCodeV2 c cid ui {}),
          getKey (effQuery o) "remote" = some (QVal.b false) ∧
          getKey (effQuery o) "emptyMode" = some (QVal.b false) ∧
          getKey (effQuery o) "width" = some (QVal.s "100%") ∧
          getKey (effQuery o) "height" = some (QVal.s "100%")) ∧
    (∀ (c : Djs.Client) (cid : String) (ui : UserInfo),
        ∀ o ∈ Djs.dispatch c (Djs.retrieveEmbedCodeV2 c cid ui {}),
          getKey (effQuery o) "remote" = some (QVal.b false) ∧
          getKey (effQuery o) "emptyMode" = some (QVal.b false) ∧
          getKey (effQuery o) "width" = some (QVal.s "100%") ∧
          getKey (effQuery o) "height" = some (QVal.s "100%")) := by
  constructor
  · intro c cid ui o ho
    by_cases h : c.apiVersion < 0.8
    · unfold P0.retrieveEmbedCodeV2 at ho
      rw [if_pos h] at ho
      simp [P0.dispatch] at ho
    · unfold P0.retrieveEmbedCodeV2 at ho
      rw [if_neg h] at ho
      simp only [P0.dispatch, Option.map_some', Option.mem_def, Option.some.injEq] at ho
      subst ho
      exact ⟨rfl, rfl, rfl, rfl⟩
  · intro c cid ui o ho
    simp only [Djs.retrieveEmbedCodeV2, Djs.dispatch, Option.some_bind, Option.mem_def,
      prepareDjs_get, Except.toOption, Option.some.injEq] at ho
    subst ho
    exact ⟨rfl, rfl, rfl, rfl⟩

/-- Instantiation of the C8 theorem at a version-0.8 client. -/
theorem retrieveEmbedCodeV2_defaults_witness :
    getKey (effQuery (P0.prepare p0ClientV8
        (P0._get p0ClientV8 "/retrieveEmbedCode" DD_SERVICES_PATH
          [ ("customerID", QVal.s "c")
          , ("email", QVal.s uiSample.email)
          , ("firstname", QVal.s uiSample.firstName)
          , ("lastname", QVal.s uiSample.lastName)
          , ("username", QVal.s uiSample.username)
          , ("remote", QVal.b (jsOrBool none))
          , ("emptyMode", QVal.b (jsOrBool none))
          , ("width", QVal.s (jsOrStr none "100%"))
          , ("height", QVal.s (jsOrStr none "100%")) ]))) "width"
      = some (QVal.s "100%") :=
  (retrieveEmbedCodeV2_defaults.1 p0ClientV8 "c" uiSample _
    (by unfold P0.retrieveEmbedCodeV2
        rw [if_neg (by norm_num [p0ClientV8])]
        rfl)).2.2.1

/-- C9: both constructors accept `version` as an alias for `apiVersion`: with
`apiVersion` absent or falsy and `version` truthy, the client's `apiVersion`
equals `options.version`; with both absent the default is `'v1'` in `dd.js`
and `0.5` in `part_000`, and the trusted-partner field defaults to `''`. -/
theorem ctor_version_alias :
    (∀ (host : String) (o : Djs.CtorOpts) (v : String),
        o.apiVersion.getD "" = "" → o.version = some v → v ≠ "" →
        (Djs.DirectDigital host o).apiVersion = v) ∧
    (∀ (host : String) (o : P0.CtorOpts) (v : ℚ),
        o.apiVersion.getD 0 = 0 → o.version = some v → v ≠ 0 →
        (P0.DirectDigital host o).apiVersion = v) ∧
    (∀ host : String, (Djs.DirectDigital host {}).apiVersion = "v1") ∧
    (∀ host : String, (P0.DirectDigital host {}).apiVersion = 0.5) ∧
    (∀ host : String, (Djs.DirectDigital host {}).trustedParterId = "") ∧
    (∀ host : String, (P0.DirectDigital host {}).trustedPartnerId = "") := by
  refine ⟨?_, ?_, fun host => rfl, fun host => rfl, fun host => rfl, fun host => rfl⟩
  · intro host o v h1 h2 h3
    unfold Djs.DirectDigital jsOrStr
    cases ha : o.apiVersion with
    | none => simp [h2, h3]
    | some a =>
        rw [ha] at h1
        simp only [Option.getD_some] at h1
        subst h1
        simp [h2, h3]
  · intro host o v h1 h2 h3
    unfold P0.DirectDigital jsOrNum
    cases ha : o.apiVersion with
    | none => simp [h2, h3]
    | some a =>
        rw [ha] at h1
        simp only [Option.getD_some] at h1
        subst h1
        simp [h2, h3]

/-- Instantiation of the C9 theorem: `version: 'v2'` (resp. `0.7`) with
`apiVersion` absent yields that version. -/
theorem ctor_version_alias_witness :
    (Djs.DirectDigital "http://h" { version := some "v2" }).apiVersion = "v2" ∧
    (P0.DirectDigital "http://h" { version := some 0.7 }).apiVersion = 0.7 :=
  ⟨ctor_version_alias.1 "http://h" { version := some "v2" } "v2" rfl rfl (by decide),
   ctor_version_alias.2.1 "http://h" { version := some 0.7 } 0.7 rfl rfl (by norm_num)⟩

/-- C10: `fulfillProducts` is the one operation that sends the customer
identifier under the all-lowercase key `customerid` (and no `customerID`
key), while every other customer-accepting operation of either revision
sends it under `customerID`; stated over the query parameters of the request
descriptor each operation builds. -/
theorem customer_key_naming :
    (∀ (c : P0.Client) (cid : String) (ui : UserInfo) (pcs : List String),
        ∀ o ∈ P0.fulfillProducts c cid ui pcs,
          getKey (effQuery o) "customerid" = some (QVal.s cid) ∧
          getKey (effQuery o) "customerID" = none) ∧
    (∀ (c : Djs.Client) (cid : String) (ui : UserInfo) (pcs : List String),
        ∀ o ∈ Djs.fulfillProducts c cid ui pcs,
          getKey (effQuery o) "customerid" = some (QVal.s cid) ∧
          getKey (effQuery o) "customerID" = none) ∧
    (∀ (c : P0.Client) (cid : String) (pcs : List String),
        ∀ o ∈ P0.deactivateUserProducts c cid pcs,
          getKey (effQuery o) "customerID" = some (QVal.s cid)) ∧
    (∀ (c : P0.Client) (cid : String),
        ∀ o ∈ P0.generateMobileKey c cid,
          getKey (effQuery o) "customerID" = some (QVal.s cid)) ∧
    (∀ (c : P0.Client) (cid : String),
        ∀ o ∈ P0.retrieveUserProducts c cid,
          getKey (effQuery o) "customerID" = some (QVal.s cid)) ∧
    (∀ (c : P0.Client) (cid : String) (pcs : List String),
        ∀ o ∈ P0.renewProduct c cid pcs,
          getKey (effQuery o) "customerID" = some (QVal.s cid)) ∧
    (∀ (c : P0.Client) (cid : String) (remote : Bool) (ui : UserInfo),
        ∀ o ∈ P0.retrieveIntegratedEmbedCode c cid remote ui,
          getKey (effQuery o) "customerID" = some (QVal.s cid)) ∧
    (∀ (c : P0.Client) (cid : String) (ui : UserInfo) (rc : String),
        ∀ o ∈ P0.redeemCodeFromBookstore c cid ui rc,
          getKey (effQuery o) "customerID" = some (QVal.s cid)) ∧
    (∀ (c : P0.Client) (cid : String) (ui : UserInfo),
        ∀ o ∈ P0.retrieveEmbedCodeV1 c cid ui,
          getKey (effQuery o) "customerID" = some (QVal.s cid)) ∧
    (∀ (c : P0.Client) (cid : String) (ui : UserInfo) (eo : EmbedOpts),
        ∀ o ∈ P0.retrieveEmbedCodeV2 c cid ui eo,
          getKey (effQuery o) "customerID" = some (QVal.s cid)) ∧
    (∀ (c : Djs.Client) (cid : String) (pcs : List String),
        ∀ o ∈ Djs.deactivateUserProducts c cid pcs,
          getKey (effQuery o) "customerID" = some (QVal.s cid)) ∧
    (∀ (c : Djs.Client) (cid : String),
        ∀ o ∈ Djs.generateMobileKey c cid,
          getKey (effQuery o) "customerID" = some (QVal.s cid)) ∧
    (∀ (c : Djs.Client) (cid : String),
        ∀ o ∈ Djs.retrieveUserProducts c cid,
          getKey (effQuery o) "customerID" = some (QVal.s cid)) ∧
    (∀ (c : Djs.Client) (cid : String) (ui : UserInfo) (rc : String),
        ∀ o ∈ Djs.redeemCodeFromBookstore c cid ui rc,
          getKey (effQuery o) "customerID" = some (QVal.s cid)) ∧
    (∀ (c : Djs.Client) (cid : String) (ui : UserInfo),
        ∀ o ∈ Djs.retrieveEmbedCodeV1 c cid ui,
          getKey (effQuery o) "customerID" = some (QVal.s cid)) ∧
    (∀ (c : Djs.Client) (cid : String) (ui : UserInfo) (eo : EmbedOpts),
        ∀ o ∈ Djs.retrieveEmbedCodeV2 c cid ui eo,
          getKey (effQuery o) "customerID" = some (QVal.s cid)) := by
  refine ⟨?_, ?_, ?_, ?_, ?_, ?_, ?_, ?_, ?_, ?_, ?_, ?_, ?_, ?_, ?_, ?_⟩
  · intro c cid ui pcs o ho
    simp only [P0.fulfillProducts, Option.mem_def, Option.some.injEq] at ho
    subst ho
    exact ⟨rfl, rfl⟩
  · intro c cid ui pcs o ho
    simp only [Djs.fulfillProducts, Option.mem_def, Option.some.injEq] at ho
    subst ho
    exact ⟨rfl, rfl⟩
  · intro c cid pcs o ho
    simp only [P0.deactivateUserProducts, Option.mem_def, Option.some.injEq] at ho
    subst ho
    rfl
  · intro c cid o ho
    simp only [P0.generateMobileKey, Option.mem_def, Option.some.injEq] at ho
    subst ho
    rfl
  · intro c cid o ho
    simp only [P0.retrieveUserProducts, Option.mem_def, Option.some.injEq] at ho
    subst ho
    rfl
  · intro c cid pcs o ho
    by_cases h : c.apiVersion < 0.8
    · unfold P0.renewProduct at ho
      rw [if_pos h] at ho
      simp at ho
    · unfold P0.renewProduct at ho
      rw [if_neg h] at ho
      simp only [Option.mem_def, Option.some.injEq] at ho
      subst ho
      rfl
  · intro c cid remote ui o ho
    by_cases h : c.apiVersion < 0.7
    · unfold P0.retrieveIntegratedEmbedCode at ho
      rw [if_pos h] at ho
      simp at ho
    · unfold P0.retrieveIntegratedEmbedCode at ho
      rw [if_neg h] at ho
      simp only [Option.mem_def, Option.some.injEq] at ho
      subst ho
      rfl
  · intro c cid ui rc o ho
    by_cases h : c.apiVersion < 0.6
    · unfold P0.redeemCodeFromBookstore at ho
      rw [if_pos h] at ho
      simp at ho
    · unfold P0.redeemCodeFromBookstore at ho
      rw [if_neg h] at ho
      simp only [Option.mem_def, Option.some.injEq] at ho
      subst ho
      rfl
  · intro c cid ui o ho
    simp only [P0.retrieveEmbedCodeV1, Option.mem_def, Option.some.injEq] at ho
    subst ho
    rfl
  · intro c cid ui eo o ho
    by_cases h : c.apiVersion < 0.8
    · unfold P0.retrieveEmbedCodeV2 at ho
      rw [if_pos h] at ho
      simp at ho
    · unfold P0.retrieveEmbedCodeV2 at ho
      rw [if_neg h] at ho
      simp only [Option.mem_def, Option.some.injEq] at ho
      subst ho
      rfl
  · intro c cid pcs o ho
    simp only [Djs.deactivateUserProducts, Option.mem_def, Option.some.injEq] at ho
    subst ho
    rfl
  · intro c cid o ho
    simp only [Djs.generateMobileKey, Option.mem_def, Option.some.injEq] at ho
    subst ho
    rfl
  · intro c cid o ho
    simp only [Djs.retrieveUserProducts, Option.mem_def, Option.some.injEq] at ho
    subst ho
    rfl
  · intro c cid ui rc o ho
    by_cases h : c.apiVersion ≠ "v2"
    · unfold Djs.redeemCodeFromBookstore at ho
      rw [if_pos h] at ho
      simp at ho
    · unfold Djs.redeemCodeFromBookstore at ho
      rw [if_neg h] at ho
      simp only [Option.mem_def, Option.some.injEq] at ho
      subst ho
      rfl
  · intro c cid ui o ho
    simp only [Djs.retrieveEmbedCodeV1, Option.mem_def, Option.some.injEq] at ho
    subst ho
    rfl
  · intro c cid ui eo o ho
    simp only [Djs.retrieveEmbedCodeV2, Option.mem_def, Option.some.injEq] at ho
    subst ho
    rfl

/-- Instantiation of the C10 theorem: concrete `fulfillProducts` and
`retrieveUserProducts` requests of a version-0.5 client. -/
theorem customer_key_naming_witness :
    (getKey (effQuery (P0._post p0ClientV5 "/fulfillProducts" XPLANA_SERVICES_PATH
        [ ("customerid", QVal.s "c")
        , ("userinfovo.email", QVal.s uiSample.email)
        , ("userinfovo.firstname", QVal.s uiSample.firstName)
        , ("userinfovo.lastname", QVal.s uiSample.lastName)
        , ("userinfovo.username", QVal.s uiSample.username)
        , ("productCode", QVal.arr ["p"]) ] none)) "customerid"
      = some (QVal.s "c") ∧
     getKey (effQuery (P0._post p0ClientV5 "/fulfillProducts" XPLANA_SERVICES_PATH
        [ ("customerid", QVal.s "c")
        , ("userinfovo.email", QVal.s uiSample.email)
        , ("userinfovo.firstname", QVal.s uiSample.firstName)
        , ("userinfovo.lastname", QVal.s uiSample.lastName)
        , ("userinfovo.username", QVal.s uiSample.username)
        , ("productCode", QVal.arr ["p"]) ] none)) "customerID" = none) ∧
    getKey (effQuery (P0._get p0ClientV5 "/retrieveUserProducts" XPLANA_SERVICES_PATH
        [("customerID", QVal.s "c")])) "customerID" = some (QVal.s "c") :=
  ⟨customer_key_naming.1 p0ClientV5 "c" uiSample ["p"] _ rfl,
   customer_key_naming.2.2.2.2.1 p0ClientV5 "c" _ rfl⟩

end DirectDigitalClient
